import Mathlib

/-!
Verification of the lesson-generation pipeline of GAIN-Solutions
(`src/server.js`, with the near-duplicate variants `src/unnamed/part_000`
and `src/unnamed/part_001`).

The JavaScript source is shallowly embedded: JSON values become the
inductive `JVal`, the per-slide repair of the `/api/generate` handler
becomes `normalizeSlide` / `normalizeLesson`, the image client becomes
`generateImageSrv` / `generateImage000`, the PowerPoint layout loop
becomes `buildDeck`, and the whole request handler becomes
`handleGenerate`.  JavaScript strings are modelled through their
character lists (`String.data`); `.length` is the character count
(UTF-16 surrogate pairs are not modelled), `.trim()` is
`Char.isWhitespace`-trimming on both ends, and `String.prototype.split`
is reproduced by `splitChars` (single-character class, as in
`/[.:;]/`) and `splitRunsGo` (character class with `+`, as in
`/[.!?]+/`).
-/

namespace GainSolutions

/-- Characters matched by the regex class `[.!?]` used by the
string-content repair (`slide.content.split(/[.!?]+/)`). -/
def isSentenceTerm (c : Char) : Bool := c = '.' || c = '!' || c = '?'

/-- Characters matched by the regex class `[.:;]` used by the
over-length item repair (`cleaned.split(/[.:;]/)`). -/
def isClauseSep (c : Char) : Bool := c = '.' || c = ':' || c = ';'

/-- `String.prototype.trim()` on the character list: whitespace removed
from both ends. -/
def jsTrimList (cs : List Char) : List Char :=
  ((cs.dropWhile Char.isWhitespace).reverse.dropWhile Char.isWhitespace).reverse

/-- `String.prototype.trim()`. -/
def jsTrim (s : String) : String := String.mk (jsTrimList s.data)

/-- `String.prototype.length`, modelled as the character count. -/
def jsLen (s : String) : Nat := s.data.length

/-- `String.prototype.split` on a single-character class without a
quantifier (the `/[.:;]/` split): every separator produces a boundary,
so consecutive separators yield empty fragments, and `""` splits to
`[""]`. -/
def splitChars (p : Char → Bool) : List Char → List (List Char)
  | [] => [[]]
  | c :: rest =>
    if p c then [] :: splitChars p rest
    else
      match splitChars p rest with
      | [] => [[c]]
      | h :: t => (c :: h) :: t

mutual

/-- `String.prototype.split` on a character class with `+`
(the `/[.!?]+/` split): a maximal run of separators produces one
boundary.  `acc` holds the current fragment reversed. -/
def splitRunsGo (p : Char → Bool) : List Char → List Char → List (List Char)
  | [], acc => [acc.reverse]
  | c :: rest, acc =>
    if p c then acc.reverse :: skipSeps p rest
    else splitRunsGo p rest (c :: acc)

/-- After a separator run began, skip the rest of the run, then resume
accumulating the next fragment. -/
def skipSeps (p : Char → Bool) : List Char → List (List Char)
  | [] => [[]]
  | c :: rest => if p c then skipSeps p rest else splitRunsGo p rest [c]

end

/-- `s.split(/[.:;]/)`-style split, on `String`. -/
def splitOnStr (p : Char → Bool) (s : String) : List String :=
  (splitChars p s.data).map String.mk

/-- `s.split(/[.!?]+/)`-style split, on `String`. -/
def jsSplitRuns (p : Char → Bool) (s : String) : List String :=
  (splitRunsGo p s.data []).map String.mk

/-- Non-overlapping left-to-right replacement of every occurrence of
`pat` (as in `String.prototype.replace` with a `/g` regex of a literal
pattern).  `fuel` is an upper bound on the remaining input length so the
recursion is structural. -/
def replaceAllGo (pat repl : List Char) : Nat → List Char → List Char
  | _, [] => []
  | 0, l => l
  | fuel + 1, c :: rest =>
    if pat ≠ [] ∧ pat.isPrefixOf (c :: rest) then
      repl ++ replaceAllGo pat repl fuel ((c :: rest).drop pat.length)
    else
      c :: replaceAllGo pat repl fuel rest

/-- `s.replace(pattern, repl)` with a global-flag literal pattern. -/
def replaceAll (pat repl s : String) : String :=
  String.mk (replaceAllGo pat.data repl.data s.data.length s.data)

/-- `src/server.js` lines 19-21: strip markdown code fences from the raw
model response before `JSON.parse`. -/
def cleanJSON (text : String) : String :=
  jsTrim (replaceAll "```" "" (replaceAll "```json" "" text))

/-- JSON values, as produced by `JSON.parse`.  Objects are not needed as
*content* values by any claim (slide objects themselves are modelled
structurally below), so the constructors cover null, booleans, numbers,
strings and arrays. -/
inductive JVal where
  | jnull : JVal
  | jbool : Bool → JVal
  | jnum : Int → JVal
  | jstr : String → JVal
  | jarr : List JVal → JVal

/-- JavaScript truthiness of a `JVal`. -/
def JVal.truthy : JVal → Bool
  | .jnull => false
  | .jbool b => b
  | .jnum n => n != 0
  | .jstr s => s != ""
  | .jarr _ => true

/-- Truthiness of a possibly-missing value (`undefined` is falsy). -/
def optTruthy : Option JVal → Bool
  | none => false
  | some v => v.truthy

/-- `a || b` on a possibly-missing left operand, as in
`slide.title || fallback`. -/
def jsOr (v : Option JVal) (d : JVal) : JVal :=
  match v with
  | some w => if w.truthy then w else d
  | none => d

/-- `Number(x) || d` for a supplied numeric field: `none` models a
missing or non-numeric value (whose `Number` is `NaN`, falsy), and `0`
is falsy as well, so both fall back to `d`. -/
def jsNumOr (v : Option Int) (d : Int) : Int :=
  match v with
  | none => d
  | some n => if n = 0 then d else n

/-! ## Data model of the parsed lesson (`lessonData`) -/

/-- One element of the parsed `slides` array, with the four fields the
normalizer reads.  `none` models an absent field (`undefined`). -/
structure RawSlide where
  content : Option JVal
  title : Option JVal
  speaker_notes : Option JVal
  image_prompt : Option JVal

/-- The `slides` field of the parsed top-level object:
`!lessonData.slides` rejects a missing or falsy value, and
`!Array.isArray(lessonData.slides)` rejects a truthy non-array. -/
inductive SlidesField where
  | missing : SlidesField
  | notArray : JVal → SlidesField
  | array : List RawSlide → SlidesField

/-- The parsed top-level lesson object. -/
structure RawLesson where
  title : Option JVal
  subtitle : Option JVal
  slides : SlidesField

/-- A slide after normalization (`src/server.js` lines 218-256).  The
fields are still `JVal`s: a truthy non-string `title` (for instance) is
kept by `slide.title || fallback` exactly as it came in. -/
structure NSlide where
  content : JVal
  title : JVal
  speaker_notes : JVal
  image_prompt : JVal

/-- The lesson after normalization; the top-level `title`/`subtitle` are
untouched by the normalization pass. -/
structure NLesson where
  title : Option JVal
  subtitle : Option JVal
  slides : List NSlide

/-- Re-embed a normalized slide as a slide object whose four fields are
all present, for feeding the normalizer its own output. -/
def NSlide.toRaw (s : NSlide) : RawSlide :=
  ⟨some s.content, some s.title, some s.speaker_notes, some s.image_prompt⟩

/-- Re-embed a normalized lesson as a parsed lesson object. -/
def NLesson.toRaw (l : NLesson) : RawLesson :=
  ⟨l.title, l.subtitle, .array (l.slides.map NSlide.toRaw)⟩

/-! ## The content normalizer (`src/server.js` lines 213-256) -/

/-- The string-content branch (lines 222-228):
`content.split(/[.!?]+/).map(s => s.trim()).filter(s => s.length > 0).slice(0, 5)`. -/
def stringContent (s : String) : JVal :=
  .jarr (((((jsSplitRuns isSentenceTerm s).map jsTrim).filter
      (fun t => t ≠ "")).take 5).map .jstr)

/-- The per-item repair inside the array branch (lines 233-241): trim
the item; if the trimmed item exceeds 150 characters, split it on
`/[.:;]/`, trim the parts, drop empty parts and take `parts[0]`.
`none` models the `undefined` that `parts[0]` yields when every part is
empty — the subsequent `.filter(item => item.length > 0)` then
dereferences `undefined` and throws. -/
def repairItem (s : String) : Option String :=
  let cleaned := jsTrim s
  if 150 < jsLen cleaned then
    (((splitOnStr isClauseSep cleaned).map jsTrim).filter (fun p => p ≠ "")).head?
  else some cleaned

/-- The array-content branch (lines 229-248): keep truthy strings, run
`repairItem` over them, drop empty results, and fall back to the
placeholder `Slide <n> content` (1-based `n`) when nothing survives.
A `none` from `repairItem` anywhere makes the JavaScript
`.filter(item => item.length > 0)` throw, which the result `none`
models. -/
def arrayContent (idx : Nat) (xs : List JVal) : Option JVal :=
  let strs := xs.filterMap fun v =>
    match v with
    | .jstr s => if s ≠ "" then some s else none
    | _ => none
  let mapped := strs.map repairItem
  if mapped.any (fun o => o.isNone) then none
  else
    let items := (mapped.filterMap id).filter (fun t => 0 < jsLen t)
    if items.isEmpty then
      some (.jarr [.jstr ("Slide " ++ toString (idx + 1) ++ " content")])
    else some (.jarr (items.map .jstr))

/-- Normalization of one slide's `content` field (lines 219-248): a
falsy/missing value becomes the `Content not generated` placeholder, a
string is sentence-split, an array is repaired item by item, and any
other truthy value (number, `true`, …) falls through every branch and is
left unchanged. -/
def normalizeContent (idx : Nat) (c : Option JVal) : Option JVal :=
  if optTruthy c = false then some (.jarr [.jstr "Content not generated"])
  else
    match c with
    | some (.jstr s) => some (stringContent s)
    | some (.jarr xs) => arrayContent idx xs
    | some v => some v
    | none => some (.jarr [.jstr "Content not generated"])

/-- Normalization of one slide (lines 218-256): repair `content` and
default the remaining fields with `||`.  `idx` is the 0-based position;
`topic` feeds the `image_prompt` fallback. -/
def normalizeSlide (topic : String) (idx : Nat) (s : RawSlide) : Option NSlide :=
  (normalizeContent idx s.content).map fun c =>
    { content := c
      title := jsOr s.title (.jstr ("Slide " ++ toString (idx + 1)))
      speaker_notes := jsOr s.speaker_notes (.jstr "")
      image_prompt := jsOr s.image_prompt
        (.jstr ("Educational illustration for " ++ topic)) }

/-- `slides.map((slide, idx) => ...)` with an explicit running index. -/
def mapIdxGo (f : Nat → α → β) : Nat → List α → List β
  | _, [] => []
  | n, a :: as => f n a :: mapIdxGo f (n + 1) as

/-- Collect a list of optional results, failing if any is `none` (a
thrown exception anywhere aborts the whole `.map`). -/
def seqOpt : List (Option α) → Option (List α)
  | [] => some []
  | none :: _ => none
  | some a :: rest => (seqOpt rest).map (a :: ·)

/-- The two ways the normalization stage can abort the request. -/
inductive NormError where
  | schemaError : NormError
  | typeError : NormError
deriving DecidableEq

/-- The `err.message` each abort produces: the explicit
`throw new Error('Invalid lesson data: missing slides array')` (line
215), and the `TypeError` Node raises when `.length` is read off the
`undefined` produced by `parts[0]` (line 242). -/
def normErrMsg : NormError → String
  | .schemaError => "Invalid lesson data: missing slides array"
  | .typeError => "Cannot read properties of undefined (reading 'length')"

/-- The whole normalization stage (lines 213-256): reject a missing or
non-array `slides` field, then repair every slide in order. -/
def normalizeLesson (topic : String) (l : RawLesson) : Except NormError NLesson :=
  match l.slides with
  | .array xs =>
    match seqOpt (mapIdxGo (normalizeSlide topic) 0 xs) with
    | some ns => .ok ⟨l.title, l.subtitle, ns⟩
    | none => .error .typeError
  | _ => .error .schemaError

/-! ## Pedagogical adaptation (`src/server.js` lines 117-137 and the
`src/unnamed/part_001` variant, lines 94-119) -/

/-- `src/server.js` line 118:
`const age = Math.min(Math.max(Number(teacherAge) || 30, 20), 70)`. -/
def effectiveAge (teacherAge : Option Int) : Int :=
  min (max (jsNumOr teacherAge 30) 20) 70

/-- `src/server.js` lines 125-128: the three tone bands keyed on the
clamped age. -/
def toneServer (age : Int) : String :=
  if age < 30 then "friendly, energetic, modern, relatable"
  else if age < 50 then "clear, structured, supportive, professional"
  else "calm, formal, methodical, experienced"

/-- `src/unnamed/part_001` line 95: `const teacherAge = Number(age) || 30`
— no clamping in this variant. -/
def teacherAge001 (age : Option Int) : Int := jsNumOr age 30

/-- `src/unnamed/part_001` lines 106-109: the tone bands of that
variant, keyed on the unclamped `teacherAge`. -/
def tone001 (age : Int) : String :=
  if age < 30 then "friendly, energetic, modern"
  else if age < 50 then "clear, structured, supportive"
  else "calm, formal, methodical"

/-- `src/server.js` lines 130-137: the area-type lookup table with its
default fallback (`lifeContextMap[areaType] || "everyday student life"`). -/
def lifeContext (areaType : Option String) : String :=
  match areaType with
  | some "urban" =>
    "city life, apartments, traffic, supermarkets, technology, modern infrastructure"
  | some "rural" =>
    "villages, farming, family businesses, local markets, agricultural life"
  | some "mountain" =>
    "mountain communities, nature, terraced fields, limited infrastructure"
  | some "coastal" =>
    "coastal towns, fishing villages, tourism, sea-related activities, ports"
  | _ => "everyday student life"

/-! ## The image generator client (`src/server.js` lines 24-80 and the
`src/unnamed/part_000` variant, lines 51-122) -/

/-- What one attempt of the image client observes from the service:
a non-OK HTTP status, a thrown error (network failure or the abort of
the per-attempt timeout), or an OK response whose optional `image` field
is the payload. -/
inductive AttemptOutcome where
  | httpError : AttemptOutcome
  | exception : AttemptOutcome
  | ok : Option String → AttemptOutcome

/-- `src/server.js` lines 62-67: on an OK response, a truthy
`data.image` is wrapped into a data URL and anything else yields
`null`. -/
def acceptSrv : Option String → Option String
  | some s => if s = "" then none else some ("data:image/png;base64," ++ s)
  | none => none

/-- `src/unnamed/part_000` lines 97-104: this variant additionally
requires `data.image.length > 100` before accepting the payload. -/
def accept000 : Option String → Option String
  | some s => if 100 < jsLen s then some ("data:image/png;base64," ++ s) else none
  | none => none

/-- The retry loop `for (let attempt = 0; attempt <= retries; attempt++)`
of `generateImage`, parameterized by the OK-response acceptance check of
the variant.  `outs attempt` is what attempt number `attempt` observes.
A non-OK status retries while `attempt < retries`; a thrown error
retries unless `attempt === retries`; an OK response returns the
acceptance result immediately.  `fuel` counts the loop iterations still
permitted by the guard (`retries + 1 - attempt` at entry), making the
recursion structural; `fuel = 0` is the fall-through `return null`. -/
def imageLoop (accept : Option String → Option String)
    (outs : Nat → AttemptOutcome) (retries : Nat) : Nat → Nat → Option String
  | 0, _ => none
  | fuel + 1, attempt =>
    match outs attempt with
    | .httpError =>
      if attempt < retries then imageLoop accept outs retries fuel (attempt + 1)
      else none
    | .exception =>
      if attempt = retries then none
      else imageLoop accept outs retries fuel (attempt + 1)
    | .ok img => accept img

/-- `generateImage(prompt, retries = 2)` with a variant-specific
acceptance check: `null` at once when the prompt is falsy or
`IMAGEN_SERVICE_URL` is unset, otherwise the retry loop over the three
permitted attempts. -/
def generateImageWith (accept : Option String → Option String)
    (serviceConfigured : Bool) (prompt : JVal)
    (outs : Nat → AttemptOutcome) : Option String :=
  if prompt.truthy = false ∨ serviceConfigured = false then none
  else imageLoop accept outs 2 3 0

/-- `src/server.js` `generateImage`. -/
def generateImageSrv (serviceConfigured : Bool) (prompt : JVal)
    (outs : Nat → AttemptOutcome) : Option String :=
  generateImageWith acceptSrv serviceConfigured prompt outs

/-- `src/unnamed/part_000` `generateImage`. -/
def generateImage000 (serviceConfigured : Bool) (prompt : JVal)
    (outs : Nat → AttemptOutcome) : Option String :=
  generateImageWith accept000 serviceConfigured prompt outs

/-! ## Deck assembly (`src/server.js` lines 281-406) -/

/-- `if (x)` on an optional string: the value when truthy, else absent. -/
def jsPresent : Option String → Option String
  | some s => if s = "" then none else some s
  | none => none

/-- The title slide (lines 304-348): title text, `subtitle || topic`,
and the cover image block when `coverImg` is truthy. -/
structure TitleSlide where
  title : Option JVal
  subtitle : JVal
  image : Option String

/-- One content slide (lines 350-406): header text, the bullet list
passed to `addText`, the image block when `slideImages[index]` is
truthy, and the speaker notes when truthy. -/
structure DeckSlide where
  heading : JVal
  bullets : List JVal
  image : Option String
  notes : Option JVal

/-- The assembled deck: the title slide plus one content slide per
lesson slide. -/
structure Deck where
  titleSlide : TitleSlide
  contentSlides : List DeckSlide

/-- Lines 365-374: the bullet list handed to `addText` — an array
content is filtered to items with non-empty trim and each is trimmed
(non-string array items, which the source would choke on but which a
normalized lesson never contains, are dropped); any other content value
becomes a single text run. -/
def contentText : JVal → List JVal
  | .jarr xs =>
    xs.filterMap fun v =>
      match v with
      | .jstr s => if jsTrim s ≠ "" then some (.jstr (jsTrim s)) else none
      | _ => none
  | v => [v]

/-- A throwaway content slide used as the `getD` default when indexing
decks in theorem statements. -/
def dDeckSlide : DeckSlide := ⟨.jnull, [], none, none⟩

/-- A throwaway normalized slide used as a `getD` default. -/
def dNSlide : NSlide := ⟨.jnull, .jnull, .jnull, .jnull⟩

/-- A throwaway raw slide used as a `getD` default. -/
def dRawSlide : RawSlide := ⟨none, none, none, none⟩

/-- `src/server.js` lines 281-406: build the deck from the normalized
lesson and the positional image results
(`const [coverImg, ...slideImages] = allImages`). -/
def buildDeck (topic : String) (l : NLesson)
    (allImages : List (Option String)) : Deck :=
  let coverImg := allImages.getD 0 none
  let slideImages := allImages.drop 1
  { titleSlide :=
      { title := l.title
        subtitle := jsOr l.subtitle (.jstr topic)
        image := jsPresent coverImg }
    contentSlides :=
      mapIdxGo (fun i s =>
        { heading := s.title
          bullets := contentText s.content
          image := jsPresent (slideImages.getD i none)
          notes := if s.speaker_notes.truthy then some s.speaker_notes else none })
        0 l.slides }

/-! ## The request handler (`src/server.js` lines 83-440) -/

/-- The request fields the handler's modelled behavior depends on.
`none` models a missing field; a missing/non-numeric number folds into
`none` of the numeric fields. -/
structure ReqBody where
  topic : Option String
  slideCount : Option Int
  teacherAge : Option Int
  areaType : Option String

/-- The configuration the handler consults: `GOOGLE_API_KEY` and
`IMAGEN_SERVICE_URL` presence. -/
structure Env where
  hasApiKey : Bool
  hasImagenUrl : Bool

/-- The preview block of the success payload (lines 420-425). -/
structure Preview where
  title : Option JVal
  subtitle : Option JVal
  slideCount : Nat
  imagesGenerated : Nat

/-- What the handler sends back: either a single structured failure
(`{ success: false, error }` with an HTTP status, lines 103/111/435) or
the success payload with its preview; a failure carries no deck. -/
inductive ApiResponse where
  | failure : Nat → String → ApiResponse
  | success : Preview → Deck → ApiResponse

/-- The cover-image prompt (line 265). -/
def coverPrompt (topic ctx : String) : JVal :=
  .jstr ("Modern educational cover illustration for " ++ topic ++ ", " ++ ctx
    ++ ", professional, clean design, 16:9")

/-- The `/api/generate` handler (`src/server.js` lines 83-440), with its
external collaborators injected: `parse` stands for `JSON.parse` applied
to the fence-stripped upstream text (an `.error` is the thrown
`SyntaxError`'s message), `gen` for the `generateContent` call (an
`.error` is a generation failure's message), and `outs i` for what the
image service does on the request at position `i` (0 the cover,
`i+1` slide `i`).  The prompt string built for the text model is not
modelled — it only feeds the external service.  Any error thrown inside
the `try` block surfaces as the single catch-all failure response
(lines 430-439). -/
def handleGenerate (env : Env) (body : ReqBody)
    (parse : String → Except String RawLesson)
    (gen : Except String String)
    (outs : Nat → Nat → AttemptOutcome) : ApiResponse :=
  match body.topic with
  | none => .failure 400 "Topic must be at least 3 characters"
  | some t =>
    if t = "" ∨ jsLen (jsTrim t) < 3 then
      .failure 400 "Topic must be at least 3 characters"
    else if env.hasApiKey = false then
      .failure 500 "Server configuration error - API key missing"
    else
      match gen with
      | .error m => .failure 500 ("Lesson generation failed: " ++ m)
      | .ok responseText =>
        match parse (cleanJSON responseText) with
        | .error m => .failure 500 ("Lesson generation failed: " ++ m)
        | .ok lessonData =>
          match normalizeLesson t lessonData with
          | .error e => .failure 500 ("Lesson generation failed: " ++ normErrMsg e)
          | .ok nl =>
            let ctx := lifeContext body.areaType
            let allImages := mapIdxGo
              (fun i p => generateImageSrv env.hasImagenUrl p (outs i)) 0
              (coverPrompt t ctx :: nl.slides.map (fun s => s.image_prompt))
            let successCount := (allImages.filter (fun o => o.isSome)).length
            .success
              ⟨nl.title, nl.subtitle, nl.slides.length, successCount⟩
              (buildDeck t nl allImages)

/-! ## Spec-side definitions

These two definitions follow the specification's words rather than the
source, so that the source-derived definitions above can be compared
against them. -/

/-- The over-length item repair as the specification sentence words it:
an item whose trim exceeds 150 characters is "cut down to the text
before its first sentence/clause separator (`.`, `:`, `;`)".
Spec-side definition, to be compared with `repairItem`. -/
def specRepairItem (s : String) : String :=
  let cleaned := jsTrim s
  if 150 < jsLen cleaned then
    String.mk (cleaned.data.takeWhile (fun c => isClauseSep c = false))
  else cleaned

/-- A bullet string in the already-normalized form the idempotence
claim's precondition describes: trimmed, non-empty, at most 150
characters. -/
def bulletStrOk (s : String) : Prop := jsTrim s = s ∧ s ≠ "" ∧ jsLen s ≤ 150

/-- A slide in already-normalized form: the content is a non-empty list
of `bulletStrOk` bullet strings, the title and image prompt are present
and truthy, and the speaker notes are a (possibly empty) string.  This
is the idempotence precondition as the counterexample below forces it to
be amended: the claim's bare "fields present" admits a present-but-empty
title or image prompt, which re-normalization replaces. -/
def slideNormalized (sl : NSlide) : Prop :=
  (∃ ss : List String, sl.content = .jarr (ss.map .jstr) ∧ ss ≠ [] ∧
    ∀ s ∈ ss, bulletStrOk s)
  ∧ sl.title.truthy = true
  ∧ (∃ t, sl.speaker_notes = .jstr t)
  ∧ sl.image_prompt.truthy = true

/-! ## Helper lemmas -/

/-- A non-empty string has a positive character count. -/
theorem jsLen_pos {s : String} (h : s ≠ "") : 0 < jsLen s := by
  cases s with
  | mk data =>
    cases data with
    | nil => exact absurd rfl h
    | cons c cs => simp [jsLen]

/-- `mapIdxGo` preserves the length. -/
theorem mapIdxGo_length (f : Nat → α → β) :
    ∀ (xs : List α) (n : Nat), (mapIdxGo f n xs).length = xs.length := by
  intro xs
  induction xs with
  | nil => intro n; rfl
  | cons a as ih => intro n; simp [mapIdxGo, ih]

/-- Indexing into `mapIdxGo` applies the function at the shifted index. -/
theorem mapIdxGo_getD (f : Nat → α → β) (dA : α) (dB : β) :
    ∀ (xs : List α) (n i : Nat), i < xs.length →
      (mapIdxGo f n xs).getD i dB = f (n + i) (xs.getD i dA) := by
  intro xs
  induction xs with
  | nil => intro n i hi; simp at hi
  | cons a as ih =>
    intro n i hi
    cases i with
    | zero => simp [mapIdxGo]
    | succ i =>
      have := ih (n + 1) i (by simpa using hi)
      simpa [mapIdxGo, Nat.add_assoc, Nat.add_comm 1 i] using this

/-- Every element of `mapIdxGo f n xs` is a value of `f`. -/
theorem mapIdxGo_mem (f : Nat → α → β) :
    ∀ (xs : List α) (n : Nat) (b : β), b ∈ mapIdxGo f n xs → ∃ i a, b = f i a := by
  intro xs
  induction xs with
  | nil => intro n b hb; simp [mapIdxGo] at hb
  | cons a as ih =>
    intro n b hb
    simp only [mapIdxGo, List.mem_cons] at hb
    rcases hb with rfl | hb
    · exact ⟨n, a, rfl⟩
    · exact ih (n + 1) b hb

/-- If every positional result is `none`, the whole indexed map is a
`replicate` of `none`. -/
theorem mapIdxGo_all_none (f : Nat → α → Option String)
    (hf : ∀ i a, f i a = none) :
    ∀ (xs : List α) (n : Nat),
      mapIdxGo f n xs = List.replicate xs.length none := by
  intro xs
  induction xs with
  | nil => intro n; rfl
  | cons a as ih => intro n; simp [mapIdxGo, hf, ih, List.replicate]

/-- `getD` after dropping the head looks one position further. -/
theorem getD_drop_one (l : List α) (i : Nat) (d : α) :
    (l.drop 1).getD i d = l.getD (i + 1) d := by
  cases l with
  | nil => rfl
  | cons a t => rfl

/-- `getD` on an all-`none` replicate is `none`. -/
theorem getD_replicate_none (k i : Nat) :
    (List.replicate k (none : Option String)).getD i none = none := by
  rcases Nat.lt_or_ge i k with h | h
  · simp [List.getD_eq_getElem?_getD, List.getElem?_replicate, h]
  · simp [List.getD_eq_default, h]

/-- The success relation of `seqOpt` over `mapIdxGo`: lengths agree and
each output position is the function's result at that position. -/
theorem seqOpt_mapIdxGo_spec (f : Nat → α → Option β) (dA : α) (dB : β) :
    ∀ (xs : List α) (n : Nat) (ys : List β),
      seqOpt (mapIdxGo f n xs) = some ys →
      ys.length = xs.length ∧
        ∀ i, i < xs.length → f (n + i) (xs.getD i dA) = some (ys.getD i dB) := by
  intro xs
  induction xs with
  | nil =>
    intro n ys h
    simp only [mapIdxGo, seqOpt, Option.some.injEq] at h
    subst h
    exact ⟨rfl, fun i hi => by simp at hi⟩
  | cons a as ih =>
    intro n ys h
    simp only [mapIdxGo] at h
    cases hfa : f n a with
    | none => rw [hfa] at h; simp [seqOpt] at h
    | some b =>
      rw [hfa] at h
      simp only [seqOpt] at h
      cases hrest : seqOpt (mapIdxGo f (n + 1) as) with
      | none => rw [hrest] at h; simp at h
      | some ys2 =>
        rw [hrest] at h
        simp only [Option.map_some', Option.some.injEq] at h
        subst h
        obtain ⟨hlen, hidx⟩ := ih (n + 1) ys2 hrest
        refine ⟨by simp [hlen], ?_⟩
        intro i hi
        cases i with
        | zero => simpa using hfa
        | succ i =>
          have := hidx i (by simpa using hi)
          simpa [Nat.add_assoc, Nat.add_comm 1 i] using this

/-- `dropWhile` is idempotent. -/
theorem dropWhile_self (p : α → Bool) :
    ∀ l : List α, (l.dropWhile p).dropWhile p = l.dropWhile p := by
  intro l
  induction l with
  | nil => rfl
  | cons a t ih =>
    by_cases h : p a
    · simp [List.dropWhile_cons, h, ih]
    · simp [List.dropWhile_cons, h]

/-- A prefix of a `dropWhile`-fixed list is itself `dropWhile`-fixed. -/
theorem dropWhile_eq_self_of_prefix (p : α → Bool) (l1 l2 : List α)
    (hpre : l1 <+: l2) (h2 : l2.dropWhile p = l2) : l1.dropWhile p = l1 := by
  obtain ⟨r, rfl⟩ := hpre
  cases l1 with
  | nil => rfl
  | cons c t =>
    by_cases hc : p c
    · exfalso
      rw [List.cons_append, List.dropWhile_cons_of_pos hc] at h2
      have hle : ((t ++ r).dropWhile p).length ≤ (t ++ r).length :=
        (List.dropWhile_suffix p).length_le
      rw [h2] at hle
      simp at hle
    · exact List.dropWhile_cons_of_neg hc

/-- `jsTrimList` is idempotent. -/
theorem jsTrimList_idem (cs : List Char) : jsTrimList (jsTrimList cs) = jsTrimList cs := by
  unfold jsTrimList
  set w := Char.isWhitespace with hw
  set A := cs.dropWhile w with hA
  set R := (A.reverse.dropWhile w).reverse with hR
  have hAfix : A.dropWhile w = A := by rw [hA]; exact dropWhile_self w cs
  have hrs : R.reverse <:+ A.reverse := by
    rw [hR, List.reverse_reverse]
    exact List.dropWhile_suffix w
  have hRpre : R <+: A := List.reverse_suffix.mp hrs
  have hRfix : R.dropWhile w = R := dropWhile_eq_self_of_prefix w R A hRpre hAfix
  have hRrev : R.reverse.dropWhile w = R.reverse := by
    rw [hR, List.reverse_reverse]
    exact dropWhile_self w A.reverse
  rw [hRfix, hRrev, List.reverse_reverse]

/-- `jsTrim` is idempotent. -/
theorem jsTrim_idem (s : String) : jsTrim (jsTrim s) = jsTrim s := by
  simp [jsTrim, jsTrimList_idem]

/-- Splitting a list that contains no separator yields the list whole. -/
theorem splitChars_no_sep (p : Char → Bool) :
    ∀ cs : List Char, (∀ c ∈ cs, p c = false) → splitChars p cs = [cs] := by
  intro cs
  induction cs with
  | nil => intro _; rfl
  | cons c rest ih =>
    intro h
    have hc := h c (by simp)
    rw [splitChars, if_neg (by simp [hc])]
    rw [ih (fun x hx => h x (by simp [hx]))]

/-! ## The claims -/

/-- C2, counterexample: in the `src/unnamed/part_001` variant the age
used for tone selection is `Number(age) || 30` with no clamping, so a
supplied presenter age of 100 is used as 100, outside [20,70],
contradicting the claim that the age is always clamped into [20,70]
before tone selection. -/
theorem c2_counterexample :
    teacherAge001 (some 100) = 100 ∧ ¬ teacherAge001 (some 100) ≤ 70 :=
  ⟨rfl, by decide⟩

/-- C2, amended: in `src/server.js` the age used for tone selection is
the supplied age clamped into [20,70] (with 30 substituted for a
missing, non-numeric or zero age before clamping); the
`src/unnamed/part_001` variant uses the defaulted age unclamped, but the
tone it selects always coincides with the tone of the clamped age, since
clamping to [20,70] never crosses the band boundaries 30 and 50. -/
theorem c2_amended :
    (∀ a, 20 ≤ effectiveAge a ∧ effectiveAge a ≤ 70)
  ∧ (∀ n : Int, effectiveAge (some n) = if n = 0 then 30 else min (max n 20) 70)
  ∧ effectiveAge none = 30
  ∧ (∀ a, tone001 (teacherAge001 a) = tone001 (min (max (teacherAge001 a) 20) 70)) := by
  refine ⟨?_, ?_, by decide, ?_⟩
  · intro a
    rcases a with _ | n
    · exact ⟨by decide, by decide⟩
    · by_cases h : n = 0
      · subst h; exact ⟨by decide, by decide⟩
      · simp only [effectiveAge, jsNumOr, if_neg h]
        constructor
        · rw [Int.min_def, Int.max_def]
          split <;> split <;> omega
        · rw [Int.min_def, Int.max_def]
          split <;> split <;> omega
  · intro n
    by_cases h : n = 0
    · subst h; rw [if_pos rfl]; decide
    · simp [effectiveAge, jsNumOr, if_neg h]
  · intro a
    generalize teacherAge001 a = y
    unfold tone001
    rw [Int.min_def, Int.max_def]
    split_ifs <;> first | rfl | omega

/-- C7: a slide whose raw `content` is a (truthy) string is normalized
to the list obtained by splitting on runs of `.`, `!`, `?`, trimming
each fragment, dropping the empty ones, and keeping the first 5. -/
theorem c7_string_split (s : String) (hs : s ≠ "") (idx : Nat) :
    normalizeContent idx (some (.jstr s)) =
      some (.jarr (((((jsSplitRuns isSentenceTerm s).map jsTrim).filter
        (fun t => t ≠ "")).take 5).map JVal.jstr)) := by
  have ht : optTruthy (some (.jstr s)) = true := by
    simp [optTruthy, JVal.truthy, hs]
  unfold normalizeContent
  rw [ht]
  simp [stringContent]

set_option maxRecDepth 8000 in
/-- C7 witness: a concrete 300-character string with two sentence
terminators normalizes to exactly its three split, trimmed, non-empty
fragments. -/
theorem c7_witness :
    jsLen (String.mk (List.replicate 100 'a' ++ ['.', ' ']
        ++ List.replicate 147 'b' ++ ['.'] ++ List.replicate 50 'c')) = 300
  ∧ normalizeContent 0 (some (.jstr (String.mk (List.replicate 100 'a' ++ ['.', ' ']
        ++ List.replicate 147 'b' ++ ['.'] ++ List.replicate 50 'c'))))
      = some (.jarr [.jstr (String.mk (List.replicate 100 'a')),
          .jstr (String.mk (List.replicate 147 'b')),
          .jstr (String.mk (List.replicate 50 'c'))]) := by
  refine ⟨rfl, ?_⟩
  rw [c7_string_split _ (by decide) 0]
  rfl

set_option maxRecDepth 8000 in
/-- C10: a content array containing a string of 151 separator characters
makes the repair's `parts[0]` come out `undefined`; the following
`.filter(item => item.length > 0)` then throws, the normalizer aborts,
and the request ends in the single catch-all failure response instead of
a repaired bullet list. -/
theorem c10_repair_throws :
    normalizeLesson "Photosynthesis"
        ⟨none, none, .array [⟨some (.jarr [.jstr (String.mk (List.replicate 151 '.'))]),
          none, none, none⟩]⟩
      = .error .typeError
  ∧ handleGenerate ⟨true, true⟩ ⟨some "Photosynthesis", none, none, none⟩
      (fun _ => .ok ⟨none, none,
        .array [⟨some (.jarr [.jstr (String.mk (List.replicate 151 '.'))]),
          none, none, none⟩]⟩)
      (.ok "{}") (fun _ _ => .exception)
      = .failure 500
          "Lesson generation failed: Cannot read properties of undefined (reading 'length')" :=
  ⟨rfl, rfl⟩

/-- C3, counterexample: an OK response whose payload is absent makes
`src/server.js`'s `generateImage` return `null` immediately at attempt
0, even though the retry budget is not exhausted and the very next
attempt would have produced an image — it does not continue the retry
loop as the claim states. -/
theorem c3_counterexample :
    generateImageSrv true (.jstr "cat")
        (fun n => if n = 0 then .ok none
          else .ok (some (String.mk (List.replicate 150 'x')))) = none
  ∧ imageLoop acceptSrv
        (fun n => if n = 0 then .ok none
          else .ok (some (String.mk (List.replicate 150 'x')))) 2 2 1
      = some ("data:image/png;base64," ++ String.mk (List.replicate 150 'x')) :=
  ⟨rfl, rfl⟩

/-- C3, amended: only non-OK statuses and thrown errors/timeouts
continue the retry loop; an OK response is always final — its payload is
accepted iff truthy (`src/server.js`) or longer than 100 characters
(`src/unnamed/part_000`), and otherwise `generateImage` returns none
immediately without consuming the remaining retry budget. -/
theorem c3_amended :
    (∀ (accept : Option String → Option String) (outs : Nat → AttemptOutcome)
        (retries fuel attempt : Nat) (img : Option String),
        outs attempt = .ok img →
        imageLoop accept outs retries (fuel + 1) attempt = accept img)
  ∧ (∀ (accept : Option String → Option String) (outs : Nat → AttemptOutcome)
        (retries fuel attempt : Nat),
        outs attempt = .httpError → attempt < retries →
        imageLoop accept outs retries (fuel + 1) attempt
          = imageLoop accept outs retries fuel (attempt + 1))
  ∧ (∀ (accept : Option String → Option String) (outs : Nat → AttemptOutcome)
        (retries fuel attempt : Nat),
        outs attempt = .exception → attempt ≠ retries →
        imageLoop accept outs retries (fuel + 1) attempt
          = imageLoop accept outs retries fuel (attempt + 1))
  ∧ acceptSrv none = none
  ∧ acceptSrv (some "") = none
  ∧ (∀ s : String, jsLen s ≤ 100 → accept000 (some s) = none) := by
  refine ⟨?_, ?_, ?_, rfl, rfl, ?_⟩
  · intro accept outs retries fuel attempt img h
    rw [imageLoop, h]
  · intro accept outs retries fuel attempt h hlt
    rw [imageLoop, h, if_pos hlt]
  · intro accept outs retries fuel attempt h hne
    rw [imageLoop, h, if_neg hne]
  · intro s h
    simp only [accept000]
    rw [if_neg (by omega)]

/-- C3 witness: at attempt 0 with an OK-but-empty payload, the
`src/server.js` loop (full fuel `2 + 1`) stops at once with none; and a
100-character payload is rejected by the `src/unnamed/part_000` size
check. -/
theorem c3_witness :
    imageLoop acceptSrv (fun _ => .ok (some "")) 2 (2 + 1) 0 = none
  ∧ accept000 (some (String.mk (List.replicate 100 'y'))) = none := by
  constructor
  · exact (c3_amended.1 acceptSrv (fun _ => .ok (some "")) 2 2 0 (some "") rfl).trans rfl
  · exact c3_amended.2.2.2.2.2 (String.mk (List.replicate 100 'y')) (by decide)

/-- C1, counterexample: the string-content branch has no placeholder
fallback, so a slide whose raw content is the truthy string `"..."`
(every fragment of the sentence split is empty) is accepted by the
normalizer with an *empty* bullet list — no placeholder is
substituted. -/
theorem c1_counterexample :
    normalizeLesson "topic"
        ⟨none, none, .array [⟨some (.jstr "..."), none, none, none⟩]⟩
      = .ok ⟨none, none, [⟨.jarr [], .jstr "Slide 1", .jstr "",
          .jstr "Educational illustration for topic"⟩]⟩
  ∧ ¬ ∃ items : List JVal, JVal.jarr [] = .jarr items ∧ items ≠ [] := by
  refine ⟨rfl, ?_⟩
  rintro ⟨items, hitems, hne⟩
  cases hitems
  exact hne rfl

/-- Unfolding equation: array-valued content goes to the array
branch. -/
theorem normalizeContent_arr (idx : Nat) (xs : List JVal) :
    normalizeContent idx (some (.jarr xs)) = arrayContent idx xs := rfl

/-- If a slide's raw content is falsy/missing or an array, its
normalized content is a non-empty list. -/
theorem normalizeSlide_nonempty (topic : String) (idx : Nat) (s : RawSlide)
    (ns : NSlide) (h : normalizeSlide topic idx s = some ns)
    (hc : optTruthy s.content = false ∨ ∃ xs, s.content = some (.jarr xs)) :
    ∃ items, ns.content = .jarr items ∧ items ≠ [] := by
  unfold normalizeSlide at h
  cases hnc : normalizeContent idx s.content with
  | none => rw [hnc] at h; cases h
  | some c =>
    rw [hnc] at h
    simp only [Option.map_some', Option.some.injEq] at h
    have hcc : ns.content = c := by rw [← h]
    rcases hc with hf | ⟨xs, hxs⟩
    · unfold normalizeContent at hnc
      rw [hf, if_pos rfl, Option.some.injEq] at hnc
      exact ⟨[.jstr "Content not generated"], by rw [hcc, ← hnc],
        List.cons_ne_nil _ _⟩
    · rw [hxs, normalizeContent_arr] at hnc
      unfold arrayContent at hnc
      set strs := xs.filterMap fun v =>
        match v with
        | JVal.jstr s => if s ≠ "" then some s else none
        | _ => none with hstrs
      by_cases hany : (strs.map repairItem).any (fun o => o.isNone)
      · rw [if_pos hany] at hnc; cases hnc
      · rw [if_neg hany] at hnc
        by_cases hemp : (((strs.map repairItem).filterMap id).filter
            (fun t => 0 < jsLen t)).isEmpty
        · rw [if_pos hemp] at hnc
          simp only [Option.some.injEq] at hnc
          exact ⟨[.jstr ("Slide " ++ toString (idx + 1) ++ " content")],
            by rw [hcc, ← hnc], List.cons_ne_nil _ _⟩
        · rw [if_neg hemp] at hnc
          simp only [Option.some.injEq] at hnc
          refine ⟨_, by rw [hcc, ← hnc], ?_⟩
          rw [Bool.not_eq_true, List.isEmpty_eq_false] at hemp
          simpa [List.map_eq_nil_iff] using hemp

/-- C1, amended: for every parsed lesson the normalizer accepts, every
slide whose raw content was falsy/missing or an array has a non-empty
content list in the output (the placeholder substitution covers exactly
those shapes); the counterexample shows a slide whose raw content is a
string can come out with an empty list. -/
theorem c1_amended (topic : String) (tt st : Option JVal)
    (raws : List RawSlide) (nl : NLesson)
    (h : normalizeLesson topic ⟨tt, st, .array raws⟩ = .ok nl) :
    nl.slides.length = raws.length ∧
    ∀ i, i < raws.length →
      (optTruthy (raws.getD i dRawSlide).content = false ∨
        ∃ xs, (raws.getD i dRawSlide).content = some (.jarr xs)) →
      ∃ items, (nl.slides.getD i dNSlide).content = .jarr items ∧ items ≠ [] := by
  unfold normalizeLesson at h
  simp only [] at h
  cases hseq : seqOpt (mapIdxGo (normalizeSlide topic) 0 raws) with
  | none => rw [hseq] at h; cases h
  | some ns =>
    rw [hseq] at h
    simp only [Except.ok.injEq] at h
    have hsl : nl.slides = ns := by rw [← h]
    obtain ⟨hlen, hidx⟩ := seqOpt_mapIdxGo_spec (normalizeSlide topic)
      dRawSlide dNSlide raws 0 ns hseq
    constructor
    · rw [hsl, hlen]
    · intro i hi hshape
      have hns := hidx i hi
      rw [Nat.zero_add] at hns
      rw [hsl]
      exact normalizeSlide_nonempty topic i (raws.getD i dRawSlide)
        (ns.getD i dNSlide) hns hshape

/-- C1 witness: a lesson with one content-less slide and one
array-content slide whose items all normalize away; both get non-empty
placeholder bullet lists. -/
theorem c1_witness :
    (∃ items, ((⟨none, none,
        [⟨.jarr [.jstr "Content not generated"], .jstr "Slide 1", .jstr "",
          .jstr "Educational illustration for t"⟩,
         ⟨.jarr [.jstr "Slide 2 content"], .jstr "Slide 2", .jstr "",
          .jstr "Educational illustration for t"⟩]⟩ : NLesson).slides.getD 0
            dNSlide).content = .jarr items ∧ items ≠ [])
  ∧ (∃ items, ((⟨none, none,
        [⟨.jarr [.jstr "Content not generated"], .jstr "Slide 1", .jstr "",
          .jstr "Educational illustration for t"⟩,
         ⟨.jarr [.jstr "Slide 2 content"], .jstr "Slide 2", .jstr "",
          .jstr "Educational illustration for t"⟩]⟩ : NLesson).slides.getD 1
            dNSlide).content = .jarr items ∧ items ≠ []) := by
  have h := c1_amended "t" none none
    [⟨none, none, none, none⟩, ⟨some (.jarr [.jstr "   "]), none, none, none⟩]
    ⟨none, none,
      [⟨.jarr [.jstr "Content not generated"], .jstr "Slide 1", .jstr "",
        .jstr "Educational illustration for t"⟩,
       ⟨.jarr [.jstr "Slide 2 content"], .jstr "Slide 2", .jstr "",
        .jstr "Educational illustration for t"⟩]⟩ rfl
  exact ⟨h.2 0 (by decide) (Or.inl rfl), h.2 1 (by decide) (Or.inr ⟨_, rfl⟩)⟩

set_option maxRecDepth 8000 in
/-- C8, counterexample: an item of 161 characters whose first clause
separator is its leading `;` is repaired by the code to the first
*non-empty* trimmed segment (the full 160-character tail), whereas the
claim's "text before its first separator" is the empty string (which the
drop-empties step would then discard).  `specRepairItem` is the claim's
wording. -/
theorem c8_counterexample :
    repairItem (String.mk (';' :: List.replicate 160 'a'))
        = some (String.mk (List.replicate 160 'a'))
  ∧ specRepairItem (String.mk (';' :: List.replicate 160 'a')) = ""
  ∧ repairItem (String.mk (';' :: List.replicate 160 'a'))
      ≠ some (specRepairItem (String.mk (';' :: List.replicate 160 'a'))) := by
  refine ⟨rfl, rfl, fun h => ?_⟩
  have h1 : some (String.mk (List.replicate 160 'a')) = some "" := by
    rw [← show repairItem (String.mk (';' :: List.replicate 160 'a'))
          = some (String.mk (List.replicate 160 'a')) from rfl, h,
        show specRepairItem (String.mk (';' :: List.replicate 160 'a')) = ""
          from rfl]
  exact absurd (Option.some.inj h1) (by decide)

/-- C8, amended: an array item whose trim is within 150 characters is
kept trimmed; one whose trim exceeds 150 characters is replaced by the
first non-empty trimmed segment of its `.`/`:`/`;` split (`undefined`
when every segment is empty — see C10); in particular, when the item
contains no separator at all the full trimmed text is kept unchanged. -/
theorem c8_amended (s : String) :
    (jsLen (jsTrim s) ≤ 150 → repairItem s = some (jsTrim s))
  ∧ (150 < jsLen (jsTrim s) →
      repairItem s = (((splitOnStr isClauseSep (jsTrim s)).map jsTrim).filter
        (fun p => p ≠ "")).head?)
  ∧ (150 < jsLen (jsTrim s) →
      (∀ c ∈ (jsTrim s).data, isClauseSep c = false) →
      repairItem s = some (jsTrim s)) := by
  refine ⟨?_, ?_, ?_⟩
  · intro h
    unfold repairItem
    rw [if_neg (by omega)]
  · intro h
    unfold repairItem
    rw [if_pos h]
  · intro h hnosep
    unfold repairItem
    rw [if_pos h]
    rw [show splitOnStr isClauseSep (jsTrim s) = [String.mk (jsTrim s).data] by
      unfold splitOnStr
      rw [splitChars_no_sep isClauseSep (jsTrim s).data hnosep]
      rfl]
    have hmk : String.mk (jsTrim s).data = jsTrim s := rfl
    rw [hmk]
    simp only [List.map_cons, List.map_nil, jsTrim_idem]
    have hne : jsTrim s ≠ "" := by
      intro hcon
      rw [hcon] at h
      simp [jsLen] at h
    rw [List.filter_cons_of_pos (by simpa using hne)]
    rfl

set_option maxRecDepth 8000 in
/-- C8 witness: a 151-character separator-free item is kept whole; a
short item is kept trimmed; an over-length item with a separator in the
middle is cut to its first segment. -/
theorem c8_witness :
    repairItem (String.mk (List.replicate 151 'z'))
        = some (String.mk (List.replicate 151 'z'))
  ∧ repairItem "  hi  " = some "hi"
  ∧ repairItem (String.mk (List.replicate 151 'z' ++ [':'] ++ List.replicate 10 'w'))
      = (((splitOnStr isClauseSep (jsTrim (String.mk (List.replicate 151 'z'
          ++ [':'] ++ List.replicate 10 'w')))).map jsTrim).filter
        (fun p => p ≠ "")).head? := by
  refine ⟨?_, ?_, ?_⟩
  · exact (c8_amended (String.mk (List.replicate 151 'z'))).2.2 (by decide)
      (by decide)
  · exact ((c8_amended "  hi  ").1 (by decide)).trans rfl
  · exact (c8_amended (String.mk (List.replicate 151 'z' ++ [':']
      ++ List.replicate 10 'w'))).2.1 (by decide)

/-- The success path of the handler: when validation passes, the
credential is present, the upstream text parses and the normalizer
accepts, the response is the success payload built from the normalized
lesson and the positional image results. -/
theorem handleGenerate_success (env : Env) (body : ReqBody) (t : String)
    (parse : String → Except String RawLesson) (text : String)
    (outs : Nat → Nat → AttemptOutcome) (lessonData : RawLesson) (nl : NLesson)
    (ht : body.topic = some t) (hv : ¬ (t = "" ∨ jsLen (jsTrim t) < 3))
    (hk : env.hasApiKey = true)
    (hp : parse (cleanJSON text) = .ok lessonData)
    (hnorm : normalizeLesson t lessonData = .ok nl) :
    handleGenerate env body parse (.ok text) outs
      = .success
          ⟨nl.title, nl.subtitle, nl.slides.length,
            ((mapIdxGo (fun i p => generateImageSrv env.hasImagenUrl p (outs i)) 0
              (coverPrompt t (lifeContext body.areaType)
                :: nl.slides.map (fun s => s.image_prompt))).filter
              (fun o => o.isSome)).length⟩
          (buildDeck t nl
            (mapIdxGo (fun i p => generateImageSrv env.hasImagenUrl p (outs i)) 0
              (coverPrompt t (lifeContext body.areaType)
                :: nl.slides.map (fun s => s.image_prompt)))) := by
  unfold handleGenerate
  rw [ht]
  simp only [hp, hnorm, hk, hv]
  simp

/-- C4: `generateImage` with an unconfigured image service returns none
for every prompt and every service behavior (it never throws: every
attempt outcome — error status, timeout/exception, unconfigured
endpoint, empty prompt — maps to a value of the total function); and any
request whose text stage succeeds still completes successfully, with the
deck built from all-absent images and `imagesGenerated = 0` in the
preview. -/
theorem c4_unconfigured :
    (∀ (p : JVal) (outs : Nat → AttemptOutcome), generateImageSrv false p outs = none)
  ∧ ∀ (env : Env) (body : ReqBody) (t : String)
      (parse : String → Except String RawLesson) (text : String)
      (outs : Nat → Nat → AttemptOutcome) (lessonData : RawLesson) (nl : NLesson),
      body.topic = some t → ¬ (t = "" ∨ jsLen (jsTrim t) < 3) →
      env.hasApiKey = true → env.hasImagenUrl = false →
      parse (cleanJSON text) = .ok lessonData →
      normalizeLesson t lessonData = .ok nl →
      handleGenerate env body parse (.ok text) outs
          = .success ⟨nl.title, nl.subtitle, nl.slides.length, 0⟩
              (buildDeck t nl (List.replicate (nl.slides.length + 1) none))
        ∧ (buildDeck t nl
            (List.replicate (nl.slides.length + 1) none)).titleSlide.image = none
        ∧ ∀ cs ∈ (buildDeck t nl
            (List.replicate (nl.slides.length + 1) none)).contentSlides,
            cs.image = none := by
  have hgen : ∀ (p : JVal) (outs2 : Nat → AttemptOutcome),
      generateImageSrv false p outs2 = none := by
    intro p outs2
    simp [generateImageSrv, generateImageWith]
  refine ⟨hgen, ?_⟩
  intro env body t parse text outs lessonData nl ht hv hk hurl hp hnorm
  have hmain := handleGenerate_success env body t parse text outs lessonData nl
    ht hv hk hp hnorm
  rw [hurl] at hmain
  have hrepl : mapIdxGo (fun i p => generateImageSrv false p (outs i)) 0
      (coverPrompt t (lifeContext body.areaType)
        :: nl.slides.map (fun s => s.image_prompt))
      = List.replicate (nl.slides.length + 1) none := by
    have := mapIdxGo_all_none (fun i p => generateImageSrv false p (outs i))
      (fun i a => hgen a (outs i))
      (coverPrompt t (lifeContext body.areaType)
        :: nl.slides.map (fun s => s.image_prompt)) 0
    simpa using this
  rw [hrepl] at hmain
  have hfilter : ((List.replicate (nl.slides.length + 1) (none : Option String)).filter
      (fun o => o.isSome)).length = 0 := by simp
  rw [hfilter] at hmain
  have hdrop : (List.replicate (nl.slides.length + 1) (none : Option String)).drop 1
      = List.replicate nl.slides.length none := by
    rw [List.replicate_succ]
    rfl
  refine ⟨hmain, ?_, ?_⟩
  · show jsPresent ((List.replicate (nl.slides.length + 1)
      (none : Option String)).getD 0 none) = none
    rw [getD_replicate_none]
    rfl
  · intro cs hcs
    have hmem : cs ∈ mapIdxGo (fun i s =>
        ({ heading := s.title
           bullets := contentText s.content
           image := jsPresent (((List.replicate (nl.slides.length + 1)
             (none : Option String)).drop 1).getD i none)
           notes := if s.speaker_notes.truthy then some s.speaker_notes
             else none } : DeckSlide)) 0 nl.slides := hcs
    obtain ⟨i, a, rfl⟩ := mapIdxGo_mem _ _ _ _ hmem
    show jsPresent (((List.replicate (nl.slides.length + 1)
      (none : Option String)).drop 1).getD i none) = none
    rw [hdrop, getD_replicate_none]
    rfl

/-- C4 witness: a concrete request against an unconfigured image
service completes successfully with `imagesGenerated = 0` and an
imageless deck. -/
theorem c4_witness :
    handleGenerate ⟨true, false⟩ ⟨some "Math", none, none, none⟩
        (fun _ => .ok ⟨some (.jstr "T"), none,
          .array [⟨some (.jarr [.jstr "A"]), some (.jstr "S"),
            some (.jstr "N"), some (.jstr "P")⟩]⟩)
        (.ok "raw model output") (fun _ _ => .ok (some "ZZZZ"))
        = .success ⟨some (.jstr "T"), none, 1, 0⟩
            (buildDeck "Math" ⟨some (.jstr "T"), none,
              [⟨.jarr [.jstr "A"], .jstr "S", .jstr "N", .jstr "P"⟩]⟩
              (List.replicate 2 none))
  ∧ (buildDeck "Math" ⟨some (.jstr "T"), none,
        [⟨.jarr [.jstr "A"], .jstr "S", .jstr "N", .jstr "P"⟩]⟩
        (List.replicate 2 none)).titleSlide.image = none := by
  have h := c4_unconfigured.2 ⟨true, false⟩ ⟨some "Math", none, none, none⟩
    "Math"
    (fun _ => .ok ⟨some (.jstr "T"), none,
      .array [⟨some (.jarr [.jstr "A"]), some (.jstr "S"),
        some (.jstr "N"), some (.jstr "P")⟩]⟩)
    "raw model output" (fun _ _ => .ok (some "ZZZZ"))
    ⟨some (.jstr "T"), none,
      .array [⟨some (.jarr [.jstr "A"]), some (.jstr "S"),
        some (.jstr "N"), some (.jstr "P")⟩]⟩
    ⟨some (.jstr "T"), none, [⟨.jarr [.jstr "A"], .jstr "S", .jstr "N", .jstr "P"⟩]⟩
    rfl (by decide) rfl rfl rfl rfl
  exact ⟨h.1, h.2.1⟩

/-- C6: when the fence-stripped upstream body fails to parse, the whole
request ends in the single structured failure response carrying the
parse message — the `failure` constructor carries no deck, partial or
complete. -/
theorem c6_parse_failure (env : Env) (body : ReqBody) (t : String)
    (parse : String → Except String RawLesson)
    (outs : Nat → Nat → AttemptOutcome) (text m : String)
    (ht : body.topic = some t) (hv : ¬ (t = "" ∨ jsLen (jsTrim t) < 3))
    (hk : env.hasApiKey = true)
    (hp : parse (cleanJSON text) = .error m) :
    handleGenerate env body parse (.ok text) outs
      = .failure 500 ("Lesson generation failed: " ++ m) := by
  unfold handleGenerate
  rw [ht]
  simp only [hp, hk, hv]
  simp

/-- C6 witness: a concrete prose-wrapped upstream body whose parse
fails produces exactly the catch-all failure response. -/
theorem c6_witness :
    handleGenerate ⟨true, true⟩ ⟨some "Math", none, none, none⟩
        (fun _ => .error "Unexpected token N in JSON at position 0")
        (.ok "Not JSON at all") (fun _ _ => .exception)
      = .failure 500 ("Lesson generation failed: "
          ++ "Unexpected token N in JSON at position 0") :=
  c6_parse_failure ⟨true, true⟩ ⟨some "Math", none, none, none⟩ "Math"
    (fun _ => .error "Unexpected token N in JSON at position 0")
    (fun _ _ => .exception) "Not JSON at all"
    "Unexpected token N in JSON at position 0"
    rfl (by decide) rfl rfl

/-- C5: for every normalized lesson with N slides and every list of N+1
image results, the deck has exactly N content slides after the title
slide, content slide i keeps slide i's title (input order, nothing
skipped), and images reattach strictly by position: result 0 to the
title slide, result i+1 to content slide i. -/
theorem c5_deck (topic : String) (l : NLesson) (imgs : List (Option String))
    (h : imgs.length = l.slides.length + 1) :
    (buildDeck topic l imgs).contentSlides.length = l.slides.length
  ∧ (buildDeck topic l imgs).titleSlide.image = jsPresent (imgs.getD 0 none)
  ∧ ∀ i, i < l.slides.length →
      ((buildDeck topic l imgs).contentSlides.getD i dDeckSlide).image
          = jsPresent (imgs.getD (i + 1) none)
      ∧ ((buildDeck topic l imgs).contentSlides.getD i dDeckSlide).heading
          = (l.slides.getD i dNSlide).title := by
  refine ⟨mapIdxGo_length _ l.slides 0, rfl, ?_⟩
  intro i hi
  have hg := mapIdxGo_getD (fun i s =>
      ({ heading := s.title
         bullets := contentText s.content
         image := jsPresent ((imgs.drop 1).getD i none)
         notes := if s.speaker_notes.truthy then some s.speaker_notes
           else none } : DeckSlide)) dNSlide dDeckSlide l.slides 0 i hi
  have hcs : (buildDeck topic l imgs).contentSlides.getD i dDeckSlide
      = ({ heading := (l.slides.getD i dNSlide).title
           bullets := contentText (l.slides.getD i dNSlide).content
           image := jsPresent ((imgs.drop 1).getD i none)
           notes := if (l.slides.getD i dNSlide).speaker_notes.truthy
             then some (l.slides.getD i dNSlide).speaker_notes
             else none } : DeckSlide) := by
    rw [show (buildDeck topic l imgs).contentSlides = mapIdxGo (fun i s =>
      ({ heading := s.title
         bullets := contentText s.content
         image := jsPresent ((imgs.drop 1).getD i none)
         notes := if s.speaker_notes.truthy then some s.speaker_notes
           else none } : DeckSlide)) 0 l.slides from rfl]
    rw [hg]
    simp only [Nat.zero_add]
  rw [hcs]
  exact ⟨by rw [getD_drop_one], rfl⟩

/-- C5 witness: two slides with the middle image absent — the deck keeps
both content slides and reattaches results 0/1/2 positionally. -/
theorem c5_witness :
    (buildDeck "t" ⟨none, none,
        [⟨.jarr [.jstr "A"], .jstr "S1", .jstr "", .jstr "P"⟩,
         ⟨.jarr [.jstr "B"], .jstr "S2", .jstr "", .jstr "Q"⟩]⟩
        [some "c", none, some "i2"]).contentSlides.length = 2
  ∧ (buildDeck "t" ⟨none, none,
        [⟨.jarr [.jstr "A"], .jstr "S1", .jstr "", .jstr "P"⟩,
         ⟨.jarr [.jstr "B"], .jstr "S2", .jstr "", .jstr "Q"⟩]⟩
        [some "c", none, some "i2"]).titleSlide.image
      = jsPresent ([some "c", none, some "i2"].getD 0 none)
  ∧ ((buildDeck "t" ⟨none, none,
        [⟨.jarr [.jstr "A"], .jstr "S1", .jstr "", .jstr "P"⟩,
         ⟨.jarr [.jstr "B"], .jstr "S2", .jstr "", .jstr "Q"⟩]⟩
        [some "c", none, some "i2"]).contentSlides.getD 1 dDeckSlide).image
      = jsPresent ([some "c", none, some "i2"].getD 2 none) := by
  have h := c5_deck "t" ⟨none, none,
      [⟨.jarr [.jstr "A"], .jstr "S1", .jstr "", .jstr "P"⟩,
       ⟨.jarr [.jstr "B"], .jstr "S2", .jstr "", .jstr "Q"⟩]⟩
      [some "c", none, some "i2"] rfl
  exact ⟨h.1, h.2.1, (h.2.2 1 (by decide)).1⟩

/-- A bullet in normalized form passes through the item repair
unchanged. -/
theorem repairItem_fixed (s : String) (h : bulletStrOk s) :
    repairItem s = some s := by
  obtain ⟨ht, hne, hlen⟩ := h
  simp only [repairItem, ht]
  rw [if_neg (by omega)]

/-- The array branch's string filter is the identity on a list of
non-empty string bullets. -/
theorem filterMap_jstr (ss : List String) (hb : ∀ s ∈ ss, s ≠ "") :
    (ss.map JVal.jstr).filterMap (fun v =>
      match v with
      | JVal.jstr s => if s ≠ "" then some s else none
      | _ => none) = ss := by
  induction ss with
  | nil => rfl
  | cons a tl ih =>
    have ha : a ≠ "" := hb a (by simp)
    rw [List.map_cons, List.filterMap_cons]
    have hrest := ih (fun s hs => hb s (by simp [hs]))
    simp only [ha, ne_eq, not_false_eq_true, if_true, hrest]

/-- The array branch is the identity on a non-empty list of normalized
bullets. -/
theorem arrayContent_fixed (idx : Nat) (ss : List String) (hne : ss ≠ [])
    (hb : ∀ s ∈ ss, bulletStrOk s) :
    arrayContent idx (ss.map .jstr) = some (.jarr (ss.map .jstr)) := by
  simp only [arrayContent]
  rw [filterMap_jstr ss (fun s hs => (hb s hs).2.1)]
  rw [List.map_congr_left (fun s hs => repairItem_fixed s (hb s hs))]
  have hany : (ss.map some).any (fun o => o.isNone) = false := by simp
  rw [hany]
  simp only [Bool.false_eq_true, if_false]
  have hfm : (ss.map some).filterMap id = ss := by
    rw [List.filterMap_map]
    exact List.filterMap_some ss
  rw [hfm]
  have hfl : ss.filter (fun t => 0 < jsLen t) = ss :=
    List.filter_eq_self.mpr (fun s hs => by simpa using jsLen_pos (hb s hs).2.1)
  rw [hfl]
  rw [if_neg (by simp [hne])]

/-- One normalized slide re-normalizes to itself. -/
theorem normalizeSlide_fixed (topic : String) (idx : Nat) (sl : NSlide)
    (h : slideNormalized sl) :
    normalizeSlide topic idx (NSlide.toRaw sl) = some sl := by
  obtain ⟨c, ti, no, ip⟩ := sl
  obtain ⟨⟨ss, hc, hne, hb⟩, htt, ⟨tnote, hnotes⟩, hip⟩ := h
  simp only [] at hc htt hnotes hip
  subst hc
  subst hnotes
  unfold normalizeSlide NSlide.toRaw
  simp only []
  rw [normalizeContent_arr, arrayContent_fixed idx ss hne hb]
  simp only [Option.map_some', Option.some.injEq]
  have h1 : jsOr (some ti) (.jstr ("Slide " ++ toString (idx + 1))) = ti := by
    simp only [jsOr]
    rw [if_pos htt]
  have h2 : jsOr (some (JVal.jstr tnote)) (.jstr "") = .jstr tnote := by
    by_cases hn : tnote = ""
    · subst hn; rfl
    · simp only [jsOr]
      rw [if_pos (by simp [JVal.truthy, hn])]
  have h3 : jsOr (some ip) (.jstr ("Educational illustration for " ++ topic))
      = ip := by
    simp only [jsOr]
    rw [if_pos hip]
  rw [h1, h2, h3]

/-- A list of normalized slides re-normalizes to itself at any starting
index. -/
theorem normalizeSlides_fixed (topic : String) :
    ∀ (sls : List NSlide) (n : Nat), (∀ sl ∈ sls, slideNormalized sl) →
      seqOpt (mapIdxGo (normalizeSlide topic) n (sls.map NSlide.toRaw))
        = some sls := by
  intro sls
  induction sls with
  | nil => intro n _; rfl
  | cons hd tl ih =>
    intro n h
    rw [List.map_cons]
    simp only [mapIdxGo]
    rw [normalizeSlide_fixed topic n hd (h hd (by simp))]
    simp only [seqOpt]
    rw [ih (n + 1) (fun sl hsl => h sl (by simp [hsl]))]
    rfl

/-- Unfolding equation: the normalizer on an array-valued `slides`
field. -/
theorem normalizeLesson_array (topic : String) (tt st : Option JVal)
    (xs : List RawSlide) :
    normalizeLesson topic ⟨tt, st, .array xs⟩
      = match seqOpt (mapIdxGo (normalizeSlide topic) 0 xs) with
        | some ns => .ok ⟨tt, st, ns⟩
        | none => .error .typeError := rfl

/-- C9, counterexample: a lesson that satisfies the claim's stated
precondition — every slide's content a non-empty list of trimmed,
non-empty, ≤150-character bullets, with title/notes/image-prompt fields
all *present* — but whose title and image prompt are present-and-empty
is changed by re-normalization (`"" || fallback` replaces them), so the
normalizer is not idempotent under the precondition as stated. -/
theorem c9_counterexample :
    normalizeLesson "t" (NLesson.toRaw ⟨none, none,
        [⟨.jarr [.jstr "ok"], .jstr "", .jstr "", .jstr ""⟩]⟩)
      = .ok ⟨none, none, [⟨.jarr [.jstr "ok"], .jstr "Slide 1", .jstr "",
          .jstr "Educational illustration for t"⟩]⟩
  ∧ (⟨none, none, [⟨.jarr [.jstr "ok"], .jstr "Slide 1", .jstr "",
        .jstr "Educational illustration for t"⟩]⟩ : NLesson)
      ≠ ⟨none, none, [⟨.jarr [.jstr "ok"], .jstr "", .jstr "", .jstr ""⟩]⟩ := by
  refine ⟨rfl, ?_⟩
  intro h
  simp at h

/-- C9, amended: the normalizer is idempotent on lessons whose every
slide is in normalized form with *truthy* (non-empty) title and image
prompt and string speaker notes: re-normalizing such a lesson yields it
back identically. -/
theorem c9_amended (topic : String) (l : NLesson)
    (h : ∀ sl ∈ l.slides, slideNormalized sl) :
    normalizeLesson topic (NLesson.toRaw l) = .ok l := by
  obtain ⟨lt, lst, sls⟩ := l
  rw [show NLesson.toRaw ⟨lt, lst, sls⟩
    = ⟨lt, lst, .array (sls.map NSlide.toRaw)⟩ from rfl]
  rw [normalizeLesson_array]
  rw [normalizeSlides_fixed topic sls 0 (by simpa using h)]

/-- C9 witness: a concrete already-normalized one-slide lesson
re-normalizes to itself. -/
theorem c9_witness :
    normalizeLesson "T" (NLesson.toRaw ⟨some (.jstr "T"), none,
        [⟨.jarr [.jstr "ok"], .jstr "Slide 1", .jstr "", .jstr "E"⟩]⟩)
      = .ok ⟨some (.jstr "T"), none,
          [⟨.jarr [.jstr "ok"], .jstr "Slide 1", .jstr "", .jstr "E"⟩]⟩ := by
  apply c9_amended
  intro sl hsl
  simp only [List.mem_singleton] at hsl
  subst hsl
  refine ⟨⟨["ok"], rfl, by simp, ?_⟩, rfl, ⟨"", rfl⟩, rfl⟩
  intro s hs
  simp only [List.mem_singleton] at hs
  subst hs
  exact ⟨rfl, by decide, by decide⟩

end GainSolutions
